import Mathlib

/-!
Verification of the bgmi-Server HTTP API (votes and bets between "player1"
and "player2").

The repository contains two revisions of the same Express + Mongoose server:

* `src/server.js` — the early revision: routes have no database gate and a
  failed initial connection is fatal.
* `src/unnamed/part_000` — the later revision: a `dbState` record
  (`status`, `error`) is kept, every data route is guarded by a `requireDB`
  middleware returning 503 while the state is not `"ok"`, and connection
  failures are retried with capped exponential backoff.

The embedding below models the route handlers as pure functions from the
database contents (a `Store` of `Vote` and `Bet` records) and the request
data to an HTTP response (status code plus a JSON body) and the new store.
JavaScript numbers are modelled as exact rationals (`ℚ`); IEEE-754
rounding, infinities and NaN-producing arithmetic are outside the model,
except that the NaN result of a failed `Number(...)` / `parseInt(...)`
coercion is modelled by `Option.none`.  MongoDB behaviour that the code
relies on is modelled explicitly: the unique index on the name field (a
duplicate insert raises error code 11000), the `$group` aggregation
pipeline, `find().sort({timestamp:-1}).limit(n)` and `findOne`.
-/

namespace BGMI

/-- JSON values, as produced by `res.json(...)` and consumed from a parsed
request body.  Object fields are kept in insertion order, matching the JS
object literals of the source. -/
inductive J where
  | null : J
  | bool (b : Bool) : J
  | num (q : ℚ) : J
  | str (s : String) : J
  | arr (elems : List J) : J
  | obj (fields : List (String × J)) : J

/-- An HTTP response: status code and JSON body, as produced by
`res.status(c).json(b)` (`res.json(b)` has status 200). -/
structure Resp where
  status : Nat
  body : J

/-- A stored Vote document (schema `voteSchema`): `voterName` (trimmed,
unique), `votedFor` (enum player1|player2), `timestamp` (defaulted to the
creation time).  The internal `_id` is never exposed and is not modelled. -/
structure Vote where
  voterName : String
  votedFor : String
  timestamp : ℚ
  deriving DecidableEq

/-- A stored Bet document (schema `betSchema`): `betterName` (trimmed,
unique), `amount` (number, `min: 0`), `betOn` (enum player1|player2),
`timestamp`. -/
structure Bet where
  betterName : String
  amount : ℚ
  betOn : String
  timestamp : ℚ
  deriving DecidableEq

/-- The database contents: the `Vote` and `Bet` collections, in natural
(insertion) order. -/
structure Store where
  votes : List Vote
  bets : List Bet
  deriving DecidableEq

/-- Body of a POST /api/votes request after `express.json` parsing and the
destructuring `const { voterName, votedFor } = req.body || {}`.  The fields
are modelled at the string level (`none` = absent). -/
structure VotePayload where
  voterName : Option String
  votedFor : Option String
  deriving DecidableEq

/-- Body of a POST /api/bets request.  `amount` is represented by the value
of the coercion `Number(amount)` used by the handler: `none` models an
absent field or a value whose coercion is NaN. -/
structure BetPayload where
  betterName : Option String
  betOn : Option String
  amount : Option ℚ
  deriving DecidableEq

/-! ## JavaScript primitives used by the handlers -/

/-- Whitespace for `String.prototype.trim` (the code points relevant to
this model: space, tab, LF, VT, FF, CR, NBSP, BOM). -/
def isJsSpace (c : Char) : Bool :=
  c == ' ' || c == '\t' || c == '\n' || c == '\x0b' || c == '\x0c' ||
  c == '\r' || c == '\u00A0' || c == '\uFEFF'

/-- Model of `String(x).trim()` on a string `x`: strip leading and trailing
whitespace. -/
def jsTrim (s : String) : String :=
  ⟨((s.data.dropWhile isJsSpace).reverse.dropWhile isJsSpace).reverse⟩

/-- Truthiness of the destructured string field `x` in `!x`: `none`
(absent, i.e. `undefined`) and the empty string are falsy. -/
def truthyStr : Option String → Bool
  | none => false
  | some s => !(s == "")

/-- Model of `["player1", "player2"].includes(x)` on a string-or-absent
value. -/
def includesP1P2 (x : Option String) : Bool :=
  x == some "player1" || x == some "player2"

/-- Model of `Number(amount) > 0` where the coercion result is `none` for
NaN: every comparison with NaN is false. -/
def jsGtZero : Option ℚ → Bool
  | none => false
  | some q => decide (0 < q)

/-- Model of the JS expression `x || d` on a number-or-undefined `x`:
`undefined`/NaN and `0` are falsy and give the default. -/
def jsOrQ (x : Option ℚ) (d : ℚ) : ℚ :=
  match x with
  | none => d
  | some q => if q = 0 then d else q

/-- Model of `x || d` on the `Option Int` result of `parseInt`: NaN and `0`
are falsy and give the default. -/
def jsOrInt (x : Option Int) (d : Int) : Int :=
  match x with
  | none => d
  | some n => if n = 0 then d else n

/-- Numeric value of a decimal digit run. -/
def decDigitsVal (ds : List Char) : Nat :=
  ds.foldl (fun a c => a * 10 + (c.toNat - '0'.toNat)) 0

/-- Is `c` a hexadecimal digit? -/
def isHexDigit (c : Char) : Bool :=
  c.isDigit || ('a' ≤ c && c ≤ 'f') || ('A' ≤ c && c ≤ 'F')

/-- Numeric value of one hexadecimal digit. -/
def hexDigitVal (c : Char) : Nat :=
  if c.isDigit then c.toNat - '0'.toNat
  else if 'a' ≤ c && c ≤ 'f' then c.toNat - 'a'.toNat + 10
  else c.toNat - 'A'.toNat + 10

/-- Numeric value of a hexadecimal digit run. -/
def hexDigitsVal (ds : List Char) : Nat :=
  ds.foldl (fun a c => a * 16 + hexDigitVal c) 0

/-- Parse after the optional sign: either a `0x`/`0X` hexadecimal run or a
decimal run; no digits means NaN (`none`). -/
def parseIntBody (cs : List Char) : Option Nat :=
  match cs with
  | '0' :: x :: rest =>
    if x == 'x' || x == 'X' then
      let ds := rest.takeWhile isHexDigit
      if ds.isEmpty then none else some (hexDigitsVal ds)
    else
      some (decDigitsVal (('0' :: x :: rest).takeWhile Char.isDigit))
  | cs =>
    let ds := cs.takeWhile Char.isDigit
    if ds.isEmpty then none else some (decDigitsVal ds)

/-- Model of `parseInt(x)` on the query value `x` (a string, or `none` when
the parameter is absent: `parseInt(undefined)` is NaN).  Leading whitespace
is skipped, an optional sign is honoured, and the longest leading digit run
(hexadecimal after a `0x` prefix) is converted; `none` models NaN. -/
def parseIntJS : Option String → Option Int
  | none => none
  | some s =>
    let cs := s.data.dropWhile isJsSpace
    match cs with
    | '-' :: rest => (parseIntBody rest).map (fun n => -(n : Int))
    | '+' :: rest => (parseIntBody rest).map (fun n => (n : Int))
    | cs => (parseIntBody cs).map (fun n => (n : Int))

/-! ## MongoDB behaviour used by the handlers -/

/-- One step of the `$group` accumulation: add `v` to the group keyed `k`,
creating the group at the end when it is new. -/
def addToGroup : List (String × ℚ) → String → ℚ → List (String × ℚ)
  | [], k, v => [(k, v)]
  | (k0, v0) :: rest, k, v =>
    if k0 == k then (k0, v0 + v) :: rest
    else (k0, v0) :: addToGroup rest k v

/-- Model of `aggregate([{ $group: { _id: key, acc: { $sum: val } } }])`:
fold the keyed values of all documents into per-key sums. -/
def groupSum (rows : List (String × ℚ)) : List (String × ℚ) :=
  rows.foldl (fun acc kv => addToGroup acc kv.1 kv.2) []

/-- Model of the lookup `m[key]` on the object built by
`Object.fromEntries(rows.map(...))`: the accumulated value for `key`, or
`none` (`undefined`) when no group has that key (`groupSum` emits each key
at most once, so first-match lookup agrees with `Object.fromEntries`). -/
def groupLookup : List (String × ℚ) → String → Option ℚ
  | [], _ => none
  | (k0, v0) :: rest, k => if k0 == k then some v0 else groupLookup rest k

/-- Model of `.sort({ timestamp: -1 })` on the Vote collection: sort by
timestamp descending. -/
def sortVotesTsDesc (l : List Vote) : List Vote :=
  l.insertionSort (fun a b => b.timestamp ≤ a.timestamp)

/-- Model of `.sort({ timestamp: -1 })` on the Bet collection. -/
def sortBetsTsDesc (l : List Bet) : List Bet :=
  l.insertionSort (fun a b => b.timestamp ≤ a.timestamp)

/-! ## Shared JSON shapes -/

/-- The totals object returned for votes: `{ player1Votes, player2Votes }`. -/
structure VoteTotals where
  player1Votes : ℚ
  player2Votes : ℚ
  deriving DecidableEq

/-- The totals object returned for bets: `{ player1Bets, player2Bets }`. -/
structure BetTotals where
  player1Bets : ℚ
  player2Bets : ℚ
  deriving DecidableEq

/-- JSON rendering of the vote totals. -/
def voteTotalsJ (t : VoteTotals) : J :=
  J.obj [("player1Votes", J.num t.player1Votes), ("player2Votes", J.num t.player2Votes)]

/-- JSON rendering of the bet totals. -/
def betTotalsJ (t : BetTotals) : J :=
  J.obj [("player1Bets", J.num t.player1Bets), ("player2Bets", J.num t.player2Bets)]

/-- The projection `{ _id: 0, voterName: 1, votedFor: 1, timestamp: 1 }`
of a Vote document, as rendered to JSON. -/
def voteRowJ (v : Vote) : J :=
  J.obj [("voterName", J.str v.voterName), ("votedFor", J.str v.votedFor),
         ("timestamp", J.num v.timestamp)]

/-- The projection `{ _id: 0, betterName: 1, amount: 1, betOn: 1,
timestamp: 1 }` of a Bet document, as rendered to JSON. -/
def betRowJ (b : Bet) : J :=
  J.obj [("betterName", J.str b.betterName), ("amount", J.num b.amount),
         ("betOn", J.str b.betOn), ("timestamp", J.num b.timestamp)]

/-- The 400 response body `{ error: "Invalid payload" }`. -/
def invalidPayloadJ : J := J.obj [("error", J.str "Invalid payload")]

/-- The limit computation shared by both recent endpoints:
`Math.min(parseInt(req.query.limit) || 100, 500)`. -/
def computeLimit (limitQ : Option String) : Int :=
  min (jsOrInt (parseIntJS limitQ) 100) 500

/-- A request to one of the data-dependent endpoints (the health endpoint
is modelled separately because its response differs between revisions). -/
inductive Request where
  | votesTotals : Request
  | betsTotals : Request
  | votesRecent (limitQ : Option String) : Request
  | betsRecent (limitQ : Option String) : Request
  | users (nameParam : String) : Request
  | postVote (p : VotePayload) : Request
  | postBet (p : BetPayload) : Request

/-! ## Connection state (later revision, `src/unnamed/part_000`) -/

/-- The mutable record `dbState = { status, error }`.  The status values
occurring in the code are the strings "init", "connecting", "ok" and
"error"; `error` is `null` (`none`) or a message string. -/
structure DbState where
  status : String
  error : Option String
  deriving DecidableEq

/-- JSON rendering of the `dbState` record as embedded in response bodies. -/
def dbStateJ (st : DbState) : J :=
  J.obj [("status", J.str st.status),
         ("error", match st.error with | none => J.null | some m => J.str m)]

/-- Outcome of one `await mongoose.connect(...)` inside `connectMongo`. -/
inductive ConnectOutcome where
  | success : ConnectOutcome
  | failure (msg : String) : ConnectOutcome

/-- Observable effects of one run of `connectMongo(backoffMs)` in the later
revision: the state written at the start of the attempt (`during`), the
state written once the connect resolves (`after`), and, on failure, the
scheduled retry as a pair of (delay in ms, backoff argument of the
rescheduled call) from
`setTimeout(() => connectMongo(Math.min(backoffMs * 2, 60000)), backoffMs)`. -/
structure AttemptEvents where
  during : DbState
  after : DbState
  retry : Option (Nat × Nat)
  deriving DecidableEq

/-- One attempt of `connectMongo(backoffMs)` with connect outcome `o`. -/
def connectMongoAttempt (backoffMs : Nat) (o : ConnectOutcome) : AttemptEvents :=
  { during := ⟨"connecting", none⟩
    after := match o with
      | .success => ⟨"ok", none⟩
      | .failure msg => ⟨"error", some msg⟩
    retry := match o with
      | .success => none
      | .failure _ => some (backoffMs, min (backoffMs * 2) 60000) }

/-- The `backoffMs` argument of the k-th attempt in a run where every
attempt so far failed: the initial call uses the default 5000, and each
failing attempt reschedules itself with `Math.min(backoffMs * 2, 60000)`. -/
def backoffAt : Nat → Nat
  | 0 => 5000
  | k + 1 => min (backoffAt k * 2) 60000

/-! ## Early revision (`src/server.js`) -/

namespace Early

/-- Early `getVoteTotals`: `$group` the Vote collection by `votedFor` with
`$sum: 1`, then `{ player1Votes: m.player1 || 0, player2Votes: m.player2 || 0 }`. -/
def getVoteTotals (votes : List Vote) : VoteTotals :=
  let g := groupSum (votes.map (fun v => (v.votedFor, (1 : ℚ))))
  { player1Votes := jsOrQ (groupLookup g "player1") 0
    player2Votes := jsOrQ (groupLookup g "player2") 0 }

/-- Early `getBetTotals`: `$group` the Bet collection by `betOn` with
`$sum: "$amount"`, then `{ player1Bets: m.player1 || 0, player2Bets: m.player2 || 0 }`. -/
def getBetTotals (bets : List Bet) : BetTotals :=
  let g := groupSum (bets.map (fun b => (b.betOn, b.amount)))
  { player1Bets := jsOrQ (groupLookup g "player1") 0
    player2Bets := jsOrQ (groupLookup g "player2") 0 }

/-- Early `GET /api/health`: `res.json({ ok: true })`. -/
def health : Resp := ⟨200, J.obj [("ok", J.bool true)]⟩

/-- Early `GET /api/votes/totals`. -/
def votesTotals (store : Store) : Resp :=
  ⟨200, voteTotalsJ (getVoteTotals store.votes)⟩

/-- Early `GET /api/bets/totals`. -/
def betsTotals (store : Store) : Resp :=
  ⟨200, betTotalsJ (getBetTotals store.bets)⟩

/-- Early `GET /api/votes/recent`: clamp the limit, sort by timestamp
descending, take `limit` rows, project the public fields. -/
def votesRecent (store : Store) (limitQ : Option String) : Resp :=
  let limit := computeLimit limitQ
  let rows := (sortVotesTsDesc store.votes).take limit.toNat
  ⟨200, J.arr (rows.map voteRowJ)⟩

/-- Early `GET /api/bets/recent`. -/
def betsRecent (store : Store) (limitQ : Option String) : Resp :=
  let limit := computeLimit limitQ
  let rows := (sortBetsTsDesc store.bets).take limit.toNat
  ⟨200, J.arr (rows.map betRowJ)⟩

/-- Early `GET /api/users/:name`: trim the path parameter, `findOne` on each
collection, and report the findings. -/
def users (store : Store) (nameParam : String) : Resp :=
  let name := jsTrim nameParam
  let vote := store.votes.find? (fun v => v.voterName == name)
  let bet := store.bets.find? (fun b => b.betterName == name)
  ⟨200, J.obj
    [("hasVoted", match vote with | some v => J.str v.votedFor | none => J.null),
     ("hasBet", match bet with | some b => J.str b.betOn | none => J.null),
     ("userVotes", match vote with | some v => J.arr [voteRowJ v] | none => J.arr []),
     ("userBets", match bet with | some b => J.arr [betRowJ b] | none => J.arr [])]⟩

/-- Early `POST /api/votes`.  `Vote.create` is modelled after mongoose: the
schema validation runs first, and `required: true` on the string path
rejects the empty string, so a name trimming to `""` throws a
ValidationError with no `code` and the catch answers 500 `Server error`
with nothing stored; then the unique index on `voterName` makes an insert
of a name already present raise the duplicate-key error (code 11000),
mapped to 409; otherwise the document is appended with `timestamp`
defaulted to `now`.  The validation guard makes the `getD` defaults for the
destructured fields unreachable. -/
def postVote (store : Store) (now : ℚ) (p : VotePayload) : Resp × Store :=
  if !truthyStr p.voterName || !includesP1P2 p.votedFor then
    (⟨400, invalidPayloadJ⟩, store)
  else
    let name := jsTrim (p.voterName.getD "")
    if name == "" then
      (⟨500, J.obj [("error", J.str "Server error")]⟩, store)
    else if store.votes.any (fun v => v.voterName == name) then
      (⟨409, J.obj [("error", J.str "Already voted")]⟩, store)
    else
      let store' : Store :=
        { store with votes := store.votes ++
            [{ voterName := name, votedFor := p.votedFor.getD "", timestamp := now }] }
      (⟨201, J.obj [("ok", J.bool true), ("totals", voteTotalsJ (getVoteTotals store'.votes))]⟩,
       store')

/-- Early `POST /api/bets`: same shape with the `Number(amount) > 0` check
and `amount: Number(amount)` stored; as for votes, a `betterName` trimming
to `""` fails the schema's required validation and answers 500 with nothing
stored. -/
def postBet (store : Store) (now : ℚ) (p : BetPayload) : Resp × Store :=
  if !truthyStr p.betterName || !includesP1P2 p.betOn || !jsGtZero p.amount then
    (⟨400, invalidPayloadJ⟩, store)
  else
    let name := jsTrim (p.betterName.getD "")
    if name == "" then
      (⟨500, J.obj [("error", J.str "Server error")]⟩, store)
    else if store.bets.any (fun b => b.betterName == name) then
      (⟨409, J.obj [("error", J.str "Already placed bet")]⟩, store)
    else
      let store' : Store :=
        { store with bets := store.bets ++
            [{ betterName := name, amount := p.amount.getD 0, betOn := p.betOn.getD "",
               timestamp := now }] }
      (⟨201, J.obj [("ok", J.bool true), ("totals", betTotalsJ (getBetTotals store'.bets))]⟩,
       store')

/-- Dispatch of the early revision over the data-dependent routes. -/
def handle (store : Store) (now : ℚ) : Request → Resp × Store
  | .votesTotals => (votesTotals store, store)
  | .betsTotals => (betsTotals store, store)
  | .votesRecent limitQ => (votesRecent store limitQ, store)
  | .betsRecent limitQ => (betsRecent store limitQ, store)
  | .users nameParam => (users store nameParam, store)
  | .postVote p => postVote store now p
  | .postBet p => postBet store now p

end Early

/-! ## Later revision (`src/unnamed/part_000`) -/

namespace Later

/-- Later `getVoteTotals` (textually identical to the early revision). -/
def getVoteTotals (votes : List Vote) : VoteTotals :=
  let g := groupSum (votes.map (fun v => (v.votedFor, (1 : ℚ))))
  { player1Votes := jsOrQ (groupLookup g "player1") 0
    player2Votes := jsOrQ (groupLookup g "player2") 0 }

/-- Later `getBetTotals` (textually identical to the early revision). -/
def getBetTotals (bets : List Bet) : BetTotals :=
  let g := groupSum (bets.map (fun b => (b.betOn, b.amount)))
  { player1Bets := jsOrQ (groupLookup g "player1") 0
    player2Bets := jsOrQ (groupLookup g "player2") 0 }

/-- The `requireDB` middleware: while `dbState.status !== "ok"`, answer 503
with `{ error: "DB not ready", db: dbState }` and never reach the handler
(`next` is the guarded handler's result). -/
def requireDB (st : DbState) (store : Store) (next : Resp × Store) : Resp × Store :=
  if st.status != "ok" then
    (⟨503, J.obj [("error", J.str "DB not ready"), ("db", dbStateJ st)]⟩, store)
  else next

/-- Later `GET /api/health`: `res.json({ ok: true, db: dbState })`, not
guarded by `requireDB`. -/
def health (st : DbState) : Resp :=
  ⟨200, J.obj [("ok", J.bool true), ("db", dbStateJ st)]⟩

/-- Later `GET /api/votes/totals` (guarded). -/
def votesTotals (st : DbState) (store : Store) : Resp × Store :=
  requireDB st store (⟨200, voteTotalsJ (getVoteTotals store.votes)⟩, store)

/-- Later `GET /api/bets/totals` (guarded). -/
def betsTotals (st : DbState) (store : Store) : Resp × Store :=
  requireDB st store (⟨200, betTotalsJ (getBetTotals store.bets)⟩, store)

/-- Later `GET /api/votes/recent` (guarded). -/
def votesRecent (st : DbState) (store : Store) (limitQ : Option String) : Resp × Store :=
  requireDB st store
    (let limit := computeLimit limitQ
     let rows := (sortVotesTsDesc store.votes).take limit.toNat
     (⟨200, J.arr (rows.map voteRowJ)⟩, store))

/-- Later `GET /api/bets/recent` (guarded). -/
def betsRecent (st : DbState) (store : Store) (limitQ : Option String) : Resp × Store :=
  requireDB st store
    (let limit := computeLimit limitQ
     let rows := (sortBetsTsDesc store.bets).take limit.toNat
     (⟨200, J.arr (rows.map betRowJ)⟩, store))

/-- Later `GET /api/users/:name` (guarded). -/
def users (st : DbState) (store : Store) (nameParam : String) : Resp × Store :=
  requireDB st store
    (let name := jsTrim nameParam
     let vote := store.votes.find? (fun v => v.voterName == name)
     let bet := store.bets.find? (fun b => b.betterName == name)
     (⟨200, J.obj
       [("hasVoted", match vote with | some v => J.str v.votedFor | none => J.null),
        ("hasBet", match bet with | some b => J.str b.betOn | none => J.null),
        ("userVotes", match vote with | some v => J.arr [voteRowJ v] | none => J.arr []),
        ("userBets", match bet with | some b => J.arr [betRowJ b] | none => J.arr [])]⟩,
      store))

/-- Later `POST /api/votes` (guarded; body identical to the early
revision, including the 500 path for a name failing the schema's required
validation). -/
def postVote (st : DbState) (store : Store) (now : ℚ) (p : VotePayload) : Resp × Store :=
  requireDB st store
    (if !truthyStr p.voterName || !includesP1P2 p.votedFor then
      (⟨400, invalidPayloadJ⟩, store)
    else
      let name := jsTrim (p.voterName.getD "")
      if name == "" then
        (⟨500, J.obj [("error", J.str "Server error")]⟩, store)
      else if store.votes.any (fun v => v.voterName == name) then
        (⟨409, J.obj [("error", J.str "Already voted")]⟩, store)
      else
        let store' : Store :=
          { store with votes := store.votes ++
              [{ voterName := name, votedFor := p.votedFor.getD "", timestamp := now }] }
        (⟨201, J.obj [("ok", J.bool true), ("totals", voteTotalsJ (getVoteTotals store'.votes))]⟩,
         store'))

/-- Later `POST /api/bets` (guarded; body identical to the early
revision, including the 500 path for a name failing the schema's required
validation). -/
def postBet (st : DbState) (store : Store) (now : ℚ) (p : BetPayload) : Resp × Store :=
  requireDB st store
    (if !truthyStr p.betterName || !includesP1P2 p.betOn || !jsGtZero p.amount then
      (⟨400, invalidPayloadJ⟩, store)
    else
      let name := jsTrim (p.betterName.getD "")
      if name == "" then
        (⟨500, J.obj [("error", J.str "Server error")]⟩, store)
      else if store.bets.any (fun b => b.betterName == name) then
        (⟨409, J.obj [("error", J.str "Already placed bet")]⟩, store)
      else
        let store' : Store :=
          { store with bets := store.bets ++
              [{ betterName := name, amount := p.amount.getD 0, betOn := p.betOn.getD "",
                 timestamp := now }] }
        (⟨201, J.obj [("ok", J.bool true), ("totals", betTotalsJ (getBetTotals store'.bets))]⟩,
         store'))

/-- Dispatch of the later revision over the data-dependent routes. -/
def handle (st : DbState) (store : Store) (now : ℚ) : Request → Resp × Store
  | .votesTotals => votesTotals st store
  | .betsTotals => betsTotals st store
  | .votesRecent limitQ => votesRecent st store limitQ
  | .betsRecent limitQ => betsRecent st store limitQ
  | .users nameParam => users st store nameParam
  | .postVote p => postVote st store now p
  | .postBet p => postBet st store now p

end Later

/-! ## Aggregation lemmas -/

theorem jsOrQ_zero (x : Option ℚ) : jsOrQ x 0 = x.getD 0 := by
  cases x with
  | none => rfl
  | some q =>
    by_cases h : q = 0 <;> simp [jsOrQ, h]

theorem groupLookup_addToGroup (g : List (String × ℚ)) (k0 k : String) (v0 : ℚ) :
    (groupLookup (addToGroup g k0 v0) k).getD 0
      = (groupLookup g k).getD 0 + (if k0 == k then v0 else 0) := by
  induction g with
  | nil =>
    by_cases h : k0 = k <;> simp [addToGroup, groupLookup, h]
  | cons kv rest ih =>
    obtain ⟨k1, v1⟩ := kv
    by_cases h1 : k1 = k0
    · subst h1
      by_cases h2 : k1 = k <;> simp [addToGroup, groupLookup, h2]
    · by_cases h2 : k1 = k
      · subst h2
        have h0 : (k0 == k1) = false := by
          simp [beq_iff_eq]
          exact fun hk => h1 hk.symm
        simp [addToGroup, groupLookup, h1, h0, beq_iff_eq]
      · simp [addToGroup, groupLookup, h1, h2, ih]

theorem groupLookup_foldl (rows : List (String × ℚ)) (g : List (String × ℚ)) (k : String) :
    (groupLookup (rows.foldl (fun acc kv => addToGroup acc kv.1 kv.2) g) k).getD 0
      = (groupLookup g k).getD 0
        + ((rows.filter (fun kv => kv.1 == k)).map (fun kv => kv.2)).sum := by
  induction rows generalizing g with
  | nil => simp
  | cons kv rest ih =>
    obtain ⟨k1, v1⟩ := kv
    by_cases h : k1 = k
    · subst h
      simp [ih, groupLookup_addToGroup]
      ring
    · have hb : (k1 == k) = false := by simp [beq_iff_eq, h]
      simp [ih, groupLookup_addToGroup, hb]

theorem groupSum_lookup (rows : List (String × ℚ)) (k : String) :
    (groupLookup (groupSum rows) k).getD 0
      = ((rows.filter (fun kv => kv.1 == k)).map (fun kv => kv.2)).sum := by
  have h := groupLookup_foldl rows [] k
  simpa [groupSum, groupLookup] using h

theorem voteRows_sum_count (l : List Vote) (k : String) :
    (((l.map (fun v => (v.votedFor, (1 : ℚ)))).filter (fun kv => kv.1 == k)).map
        (fun kv => kv.2)).sum
      = (l.countP (fun v => v.votedFor == k) : ℚ) := by
  induction l with
  | nil => simp
  | cons v rest ih =>
    by_cases h : v.votedFor = k
    · simp [List.countP_cons, h, ih]
      ring
    · simp [List.countP_cons, h, ih]

theorem betRows_sum_amount (l : List Bet) (k : String) :
    (((l.map (fun b => (b.betOn, b.amount))).filter (fun kv => kv.1 == k)).map
        (fun kv => kv.2)).sum
      = ((l.filter (fun b => b.betOn == k)).map (fun b => b.amount)).sum := by
  induction l with
  | nil => simp
  | cons b rest ih =>
    by_cases h : b.betOn = k <;> simp [h, ih]

theorem getVoteTotals_spec (votes : List Vote) :
    Early.getVoteTotals votes =
      ⟨(votes.countP (fun v => v.votedFor == "player1") : ℚ),
       (votes.countP (fun v => v.votedFor == "player2") : ℚ)⟩ := by
  simp [Early.getVoteTotals, jsOrQ_zero, groupSum_lookup, voteRows_sum_count]

theorem getBetTotals_spec (bets : List Bet) :
    Early.getBetTotals bets =
      ⟨((bets.filter (fun b => b.betOn == "player1")).map (fun b => b.amount)).sum,
       ((bets.filter (fun b => b.betOn == "player2")).map (fun b => b.amount)).sum⟩ := by
  simp [Early.getBetTotals, jsOrQ_zero, groupSum_lookup, betRows_sum_amount]

theorem later_getVoteTotals_eq : Later.getVoteTotals = Early.getVoteTotals := rfl

theorem later_getBetTotals_eq : Later.getBetTotals = Early.getBetTotals := rfl

/-! ## Sortedness lemmas -/

theorem sorted_sortVotesTsDesc (l : List Vote) :
    List.Sorted (fun a b : Vote => b.timestamp ≤ a.timestamp) (sortVotesTsDesc l) := by
  have htot : IsTotal Vote (fun a b => b.timestamp ≤ a.timestamp) :=
    ⟨fun a b => le_total b.timestamp a.timestamp⟩
  have htrans : IsTrans Vote (fun a b => b.timestamp ≤ a.timestamp) :=
    ⟨fun a b c hab hbc => le_trans hbc hab⟩
  exact @List.sorted_insertionSort _ _ _ htot htrans l

theorem sorted_sortBetsTsDesc (l : List Bet) :
    List.Sorted (fun a b : Bet => b.timestamp ≤ a.timestamp) (sortBetsTsDesc l) := by
  have htot : IsTotal Bet (fun a b => b.timestamp ≤ a.timestamp) :=
    ⟨fun a b => le_total b.timestamp a.timestamp⟩
  have htrans : IsTrans Bet (fun a b => b.timestamp ≤ a.timestamp) :=
    ⟨fun a b c hab hbc => le_trans hbc hab⟩
  exact @List.sorted_insertionSort _ _ _ htot htrans l

/-! ## Claims -/

/-- C7: for every collection state, `getVoteTotals` returns
`{player1Votes, player2Votes}` where each field equals the number of Vote
records whose `votedFor` equals that option, and `getBetTotals` returns
`{player1Bets, player2Bets}` where each field equals the sum of `amount`
over Bet records whose `betOn` equals that option; both keys are always
present (the result record has both fields) and are 0 when no record exists
for that option (the count and sum of the empty selection).  Both revisions
compute the same totals. -/
theorem C7_totals_grouping (votes : List Vote) (bets : List Bet) :
    (Early.getVoteTotals votes).player1Votes
        = (votes.countP (fun v => v.votedFor == "player1") : ℚ)
  ∧ (Early.getVoteTotals votes).player2Votes
        = (votes.countP (fun v => v.votedFor == "player2") : ℚ)
  ∧ (Early.getBetTotals bets).player1Bets
        = ((bets.filter (fun b => b.betOn == "player1")).map (fun b => b.amount)).sum
  ∧ (Early.getBetTotals bets).player2Bets
        = ((bets.filter (fun b => b.betOn == "player2")).map (fun b => b.amount)).sum
  ∧ Later.getVoteTotals votes = Early.getVoteTotals votes
  ∧ Later.getBetTotals bets = Early.getBetTotals bets := by
  refine ⟨?_, ?_, ?_, ?_, rfl, rfl⟩ <;>
    simp [getVoteTotals_spec, getBetTotals_spec]

/-- C3: in the later revision, while `dbState.status` is not `"ok"`, every
data-dependent endpoint (totals, recent, users, and both POST endpoints)
responds 503 with a body containing the current state record, regardless of
the request, and leaves the store unchanged; `GET /api/health` responds 200
with `{ok: true, db: state}` in every state. -/
theorem C3_gate_not_ok (st : DbState) (h : st.status ≠ "ok") (store : Store) (now : ℚ)
    (req : Request) :
    Later.handle st store now req
        = (⟨503, J.obj [("error", J.str "DB not ready"), ("db", dbStateJ st)]⟩, store)
  ∧ ∀ st2 : DbState, Later.health st2
        = ⟨200, J.obj [("ok", J.bool true), ("db", dbStateJ st2)]⟩ := by
  refine ⟨?_, fun st2 => rfl⟩
  have hb : (st.status != "ok") = true := by simpa [bne_iff_ne] using h
  cases req <;>
    simp [Later.handle, Later.votesTotals, Later.betsTotals, Later.votesRecent,
      Later.betsRecent, Later.users, Later.postVote, Later.postBet, Later.requireDB, hb]

/-- C3 witness: with the state `{status: "connecting", error: null}` the
totals endpoint answers 503 with the state in the body. -/
theorem C3_gate_not_ok_witness :
    (⟨"connecting", none⟩ : DbState).status ≠ "ok"
  ∧ Later.handle ⟨"connecting", none⟩ ⟨[], []⟩ 0 .votesTotals
      = (⟨503, J.obj [("error", J.str "DB not ready"),
                      ("db", dbStateJ ⟨"connecting", none⟩)]⟩, ⟨[], []⟩) :=
  ⟨by decide, (C3_gate_not_ok ⟨"connecting", none⟩ (by decide) ⟨[], []⟩ 0 .votesTotals).1⟩

/-- C9: in the later revision, a failed connection attempt sets the state to
`error` (with the message) and always schedules a retry; the attempt that
runs with the k-th backoff argument delays its retry by
`min(5000·2^k, 60000)` ms (doubling from 5000 up to the 60000 ceiling) and
reschedules itself with the next backoff argument; every attempt starts by
resetting the state to `connecting` with `error` cleared; a successful
attempt sets the state to `ok` and schedules nothing. -/
theorem C9_connect_backoff (k : Nat) (b : Nat) (msg : String) :
    backoffAt k = min (5000 * 2 ^ k) 60000
  ∧ (connectMongoAttempt (backoffAt k) (.failure msg)).retry
        = some (min (5000 * 2 ^ k) 60000, backoffAt (k + 1))
  ∧ (connectMongoAttempt b (.failure msg)).during = ⟨"connecting", none⟩
  ∧ (connectMongoAttempt b (.failure msg)).after = ⟨"error", some msg⟩
  ∧ (connectMongoAttempt b (.failure msg)).retry = some (b, min (b * 2) 60000)
  ∧ (connectMongoAttempt b .success).during = ⟨"connecting", none⟩
  ∧ (connectMongoAttempt b .success).after = ⟨"ok", none⟩
  ∧ (connectMongoAttempt b .success).retry = none := by
  have hmain : ∀ j : Nat, backoffAt j = min (5000 * 2 ^ j) 60000 := by
    intro j
    induction j with
    | zero => rfl
    | succ j ih =>
      rw [backoffAt, ih, pow_succ, ← mul_assoc]
      generalize 5000 * 2 ^ j = a
      omega
  refine ⟨hmain k, ?_, rfl, rfl, rfl, rfl, rfl, rfl⟩
  rw [connectMongoAttempt]
  simp only [hmain k]
  rw [backoffAt, hmain k]

/-- C10: with connection state `"ok"`, every data-dependent endpoint of the
later revision produces exactly the response and store of the early
revision on the same database contents; the request dispatchers agree. -/
theorem C10_revisions_agree (st : DbState) (h : st.status = "ok") (store : Store) (now : ℚ)
    (req : Request) :
    Later.handle st store now req = Early.handle store now req := by
  have hb : (st.status != "ok") = false := by simp [h]
  cases req <;>
    simp [Later.handle, Early.handle, Later.requireDB, hb,
      Later.votesTotals, Early.votesTotals, Later.betsTotals, Early.betsTotals,
      Later.votesRecent, Early.votesRecent, Later.betsRecent, Early.betsRecent,
      Later.users, Early.users, Later.postVote, Early.postVote,
      Later.postBet, Early.postBet, later_getVoteTotals_eq, later_getBetTotals_eq]

/-- C10 witness: with state `{status: "ok"}` the two dispatchers agree on a
concrete request. -/
theorem C10_revisions_agree_witness :
    (⟨"ok", none⟩ : DbState).status = "ok"
  ∧ Later.handle ⟨"ok", none⟩ ⟨[], []⟩ 0 (.users "alice")
      = Early.handle ⟨[], []⟩ 0 (.users "alice") :=
  ⟨rfl, C10_revisions_agree ⟨"ok", none⟩ rfl ⟨[], []⟩ 0 (.users "alice")⟩

/-- C1: a POST to /api/votes or /api/bets whose payload passes validation
but whose trimmed name equals the unique key of an already-stored record is
answered 409 with `{error: "Already voted"}` (votes) or
`{error: "Already placed bet"}` (bets), and the stored collection is
unchanged — in both revisions (the later one with state `"ok"`), on any
store satisfying the schema invariant that stored unique keys are nonempty
(mongoose's `required: true` makes an empty-keyed record unstorable, so
every store the program can reach satisfies it). -/
theorem C1_duplicate_409 (store : Store) (now : ℚ) :
    (∀ p : VotePayload,
      truthyStr p.voterName = true →
      includesP1P2 p.votedFor = true →
      (∀ v ∈ store.votes, v.voterName ≠ "") →
      store.votes.any (fun v => v.voterName == jsTrim (p.voterName.getD "")) = true →
        Early.postVote store now p
            = (⟨409, J.obj [("error", J.str "Already voted")]⟩, store)
        ∧ ∀ st : DbState, st.status = "ok" →
            Later.postVote st store now p
              = (⟨409, J.obj [("error", J.str "Already voted")]⟩, store))
  ∧ (∀ p : BetPayload,
      truthyStr p.betterName = true →
      includesP1P2 p.betOn = true →
      jsGtZero p.amount = true →
      (∀ b ∈ store.bets, b.betterName ≠ "") →
      store.bets.any (fun b => b.betterName == jsTrim (p.betterName.getD "")) = true →
        Early.postBet store now p
            = (⟨409, J.obj [("error", J.str "Already placed bet")]⟩, store)
        ∧ ∀ st : DbState, st.status = "ok" →
            Later.postBet st store now p
              = (⟨409, J.obj [("error", J.str "Already placed bet")]⟩, store)) := by
  constructor
  · intro p h1 h2 hwf h3
    have hne : ¬(jsTrim (p.voterName.getD "") = "") := by
      rcases List.any_eq_true.mp h3 with ⟨v, hv, hbeq⟩
      have hv2 : v.voterName = jsTrim (p.voterName.getD "") := by
        simpa [beq_iff_eq] using hbeq
      exact fun h0 => hwf v hv (hv2.trans h0)
    refine ⟨?_, fun st hst => ?_⟩
    · simp [Early.postVote, h1, h2, h3, hne]
    · have hb : (st.status != "ok") = false := by simp [hst]
      simp [Later.postVote, Later.requireDB, hb, h1, h2, h3, hne]
  · intro p h1 h2 h3 hwf h4
    have hne : ¬(jsTrim (p.betterName.getD "") = "") := by
      rcases List.any_eq_true.mp h4 with ⟨b, hbmem, hbeq⟩
      have hb2 : b.betterName = jsTrim (p.betterName.getD "") := by
        simpa [beq_iff_eq] using hbeq
      exact fun h0 => hwf b hbmem (hb2.trans h0)
    refine ⟨?_, fun st hst => ?_⟩
    · simp [Early.postBet, h1, h2, h3, h4, hne]
    · have hb : (st.status != "ok") = false := by simp [hst]
      simp [Later.postBet, Later.requireDB, hb, h1, h2, h3, h4, hne]

/-- C1 witness: reposting the stored names "alice" (vote) and "bob" (bet)
yields 409 and an unchanged store. -/
theorem C1_duplicate_409_witness :
    Early.postVote ⟨[⟨"alice", "player1", 0⟩], []⟩ 1 ⟨some "alice", some "player2"⟩
        = (⟨409, J.obj [("error", J.str "Already voted")]⟩, ⟨[⟨"alice", "player1", 0⟩], []⟩)
  ∧ Early.postBet ⟨[], [⟨"bob", 5, "player2", 0⟩]⟩ 1 ⟨some "bob", some "player1", some 10⟩
        = (⟨409, J.obj [("error", J.str "Already placed bet")]⟩,
           ⟨[], [⟨"bob", 5, "player2", 0⟩]⟩) := by
  constructor
  · exact ((C1_duplicate_409 ⟨[⟨"alice", "player1", 0⟩], []⟩ 1).1
      ⟨some "alice", some "player2"⟩ (by decide) (by decide) (by decide) (by decide)).1
  · exact ((C1_duplicate_409 ⟨[], [⟨"bob", 5, "player2", 0⟩]⟩ 1).2
      ⟨some "bob", some "player1", some 10⟩ (by decide) (by decide) (by decide)
      (by decide) (by decide)).1

/-- C2 counterexample: the payload `{voterName: " ", votedFor: "player1"}`
passes the handler's validation (`" "` is truthy) and its trimmed name `""`
is not stored, yet both revisions answer 500 `{error: "Server error"}` with
nothing inserted — mongoose's `required: true` rejects the empty string and
the resulting ValidationError carries no `code === 11000` — not the 201 the
claim asserts. -/
theorem C2_vote_201_counterexample :
    truthyStr (some " ") = true
  ∧ includesP1P2 (some "player1") = true
  ∧ (([] : List Vote).any
      (fun v => v.voterName == jsTrim ((some " ").getD ""))) = false
  ∧ Early.postVote ⟨[], []⟩ 7 ⟨some " ", some "player1"⟩
      = (⟨500, J.obj [("error", J.str "Server error")]⟩, ⟨[], []⟩)
  ∧ Later.postVote ⟨"ok", none⟩ ⟨[], []⟩ 7 ⟨some " ", some "player1"⟩
      = (⟨500, J.obj [("error", J.str "Server error")]⟩, ⟨[], []⟩) :=
  ⟨by decide, by decide, by decide, rfl, rfl⟩

/-- C2 (amended): in the later revision with state `"ok"`, a valid vote
payload whose trimmed `voterName` is nonempty and not already stored is
answered 201 with body `{ok: true, totals}` where the totals are recomputed
after the insert, and those totals exceed the pre-insert totals by exactly
1 on the chosen option with the other option's count unchanged.  (A
validated payload whose name trims to the empty string instead fails the
schema's required validation: 500 with nothing stored, see the
counterexample.) -/
theorem C2_vote_201_increments (st : DbState) (hst : st.status = "ok") (store : Store)
    (now : ℚ) (p : VotePayload)
    (h1 : truthyStr p.voterName = true)
    (h2 : includesP1P2 p.votedFor = true)
    (h0 : jsTrim (p.voterName.getD "") ≠ "")
    (h3 : store.votes.any (fun v => v.voterName == jsTrim (p.voterName.getD "")) = false) :
    Later.postVote st store now p
        = (⟨201, J.obj [("ok", J.bool true),
             ("totals", voteTotalsJ (Later.getVoteTotals (store.votes ++
               [⟨jsTrim (p.voterName.getD ""), p.votedFor.getD "", now⟩])))]⟩,
           ⟨store.votes ++ [⟨jsTrim (p.voterName.getD ""), p.votedFor.getD "", now⟩],
            store.bets⟩)
  ∧ (p.votedFor = some "player1" →
      (Later.getVoteTotals (store.votes ++
          [⟨jsTrim (p.voterName.getD ""), p.votedFor.getD "", now⟩])).player1Votes
          = (Later.getVoteTotals store.votes).player1Votes + 1
      ∧ (Later.getVoteTotals (store.votes ++
          [⟨jsTrim (p.voterName.getD ""), p.votedFor.getD "", now⟩])).player2Votes
          = (Later.getVoteTotals store.votes).player2Votes)
  ∧ (p.votedFor = some "player2" →
      (Later.getVoteTotals (store.votes ++
          [⟨jsTrim (p.voterName.getD ""), p.votedFor.getD "", now⟩])).player2Votes
          = (Later.getVoteTotals store.votes).player2Votes + 1
      ∧ (Later.getVoteTotals (store.votes ++
          [⟨jsTrim (p.voterName.getD ""), p.votedFor.getD "", now⟩])).player1Votes
          = (Later.getVoteTotals store.votes).player1Votes) := by
  have hb : (st.status != "ok") = false := by simp [hst]
  refine ⟨?_, fun hv => ?_, fun hv => ?_⟩
  · simp [Later.postVote, Later.requireDB, hb, h1, h2, h0, h3]
  · constructor <;>
      simp [later_getVoteTotals_eq, getVoteTotals_spec, hv, List.countP_append,
        List.countP_cons]
  · constructor <;>
      simp [later_getVoteTotals_eq, getVoteTotals_spec, hv, List.countP_append,
        List.countP_cons]

/-- C2 witness: voting "dana" for player1 on an empty store yields 201 and
totals 1/0. -/
theorem C2_vote_201_increments_witness :
    Later.postVote ⟨"ok", none⟩ ⟨[], []⟩ 7 ⟨some "dana", some "player1"⟩
        = (⟨201, J.obj [("ok", J.bool true),
             ("totals", voteTotalsJ (Later.getVoteTotals
               [⟨jsTrim "dana", "player1", 7⟩]))]⟩,
           ⟨[⟨jsTrim "dana", "player1", 7⟩], []⟩)
  ∧ (Later.getVoteTotals [⟨jsTrim "dana", "player1", 7⟩]).player1Votes
        = (Later.getVoteTotals ([] : List Vote)).player1Votes + 1
  ∧ (Later.getVoteTotals [⟨jsTrim "dana", "player1", 7⟩]).player2Votes
        = (Later.getVoteTotals ([] : List Vote)).player2Votes := by
  have h := C2_vote_201_increments ⟨"ok", none⟩ rfl ⟨[], []⟩ 7 ⟨some "dana", some "player1"⟩
    (by decide) (by decide) (by decide) (by decide)
  exact ⟨h.1, (h.2.1 rfl).1, (h.2.1 rfl).2⟩

theorem later_postVote_ok (st : DbState) (hst : st.status = "ok") (store : Store) (now : ℚ)
    (p : VotePayload) :
    Later.postVote st store now p = Early.postVote store now p := by
  have hb : (st.status != "ok") = false := by simp [hst]
  simp [Later.postVote, Early.postVote, Later.requireDB, hb, later_getVoteTotals_eq]

theorem later_postBet_ok (st : DbState) (hst : st.status = "ok") (store : Store) (now : ℚ)
    (p : BetPayload) :
    Later.postBet st store now p = Early.postBet store now p := by
  have hb : (st.status != "ok") = false := by simp [hst]
  simp [Later.postBet, Early.postBet, Later.requireDB, hb, later_getBetTotals_eq]

theorem later_users_ok (st : DbState) (hst : st.status = "ok") (store : Store)
    (nameParam : String) :
    Later.users st store nameParam = (Early.users store nameParam, store) := by
  have hb : (st.status != "ok") = false := by simp [hst]
  simp [Later.users, Early.users, Later.requireDB, hb]

theorem later_votesRecent_ok (st : DbState) (hst : st.status = "ok") (store : Store)
    (limitQ : Option String) :
    Later.votesRecent st store limitQ = (Early.votesRecent store limitQ, store) := by
  have hb : (st.status != "ok") = false := by simp [hst]
  simp [Later.votesRecent, Early.votesRecent, Later.requireDB, hb]

theorem later_betsRecent_ok (st : DbState) (hst : st.status = "ok") (store : Store)
    (limitQ : Option String) :
    Later.betsRecent st store limitQ = (Early.betsRecent store limitQ, store) := by
  have hb : (st.status != "ok") = false := by simp [hst]
  simp [Later.betsRecent, Early.betsRecent, Later.requireDB, hb]

/-- C4: a POST /api/bets payload whose `amount` does not coerce to a number
(NaN) or coerces to a value ≤ 0 is answered 400 `{error: "Invalid payload"}`
with the store untouched, in both revisions; conversely a payload with
truthy `betterName`, `betOn` in the player enum and a positive coerced
`amount` is never answered 400. -/
theorem C4_bet_amount_validation (store : Store) (now : ℚ) (p : BetPayload) :
    (p.amount = none →
        Early.postBet store now p = (⟨400, invalidPayloadJ⟩, store)
        ∧ ∀ st : DbState, st.status = "ok" →
            Later.postBet st store now p = (⟨400, invalidPayloadJ⟩, store))
  ∧ (∀ q : ℚ, p.amount = some q → q ≤ 0 →
        Early.postBet store now p = (⟨400, invalidPayloadJ⟩, store)
        ∧ ∀ st : DbState, st.status = "ok" →
            Later.postBet st store now p = (⟨400, invalidPayloadJ⟩, store))
  ∧ (truthyStr p.betterName = true → includesP1P2 p.betOn = true →
      ∀ q : ℚ, p.amount = some q → 0 < q →
        (Early.postBet store now p).1.status ≠ 400
        ∧ ∀ st : DbState, st.status = "ok" →
            (Later.postBet st store now p).1.status ≠ 400) := by
  refine ⟨fun ha => ?_, fun q hq hle => ?_, fun h1 h2 q hq hpos => ?_⟩
  · have h400 : Early.postBet store now p = (⟨400, invalidPayloadJ⟩, store) := by
      simp [Early.postBet, ha, jsGtZero]
    exact ⟨h400, fun st hst => by rw [later_postBet_ok st hst]; exact h400⟩
  · have hgz : jsGtZero p.amount = false := by
      simpa [jsGtZero, hq] using hle
    have h400 : Early.postBet store now p = (⟨400, invalidPayloadJ⟩, store) := by
      simp [Early.postBet, hgz]
    exact ⟨h400, fun st hst => by rw [later_postBet_ok st hst]; exact h400⟩
  · have hgz : jsGtZero p.amount = true := by simp [hq, jsGtZero, hpos]
    have hne : (Early.postBet store now p).1.status ≠ 400 := by
      by_cases hname : jsTrim (p.betterName.getD "") = ""
      · simp [Early.postBet, h1, h2, hgz, hname]
      · cases hany : store.bets.any (fun b => b.betterName == jsTrim (p.betterName.getD "")) <;>
          simp [Early.postBet, h1, h2, hgz, hname, hany]
    exact ⟨hne, fun st hst => by rw [later_postBet_ok st hst]; exact hne⟩

/-- C4 witness: an absent amount and amount -3 give 400 on an empty store;
amount 10 with a valid payload is not answered 400. -/
theorem C4_bet_amount_validation_witness :
    Early.postBet ⟨[], []⟩ 0 ⟨some "bob", some "player1", none⟩
        = (⟨400, invalidPayloadJ⟩, ⟨[], []⟩)
  ∧ Early.postBet ⟨[], []⟩ 0 ⟨some "bob", some "player1", some (-3)⟩
        = (⟨400, invalidPayloadJ⟩, ⟨[], []⟩)
  ∧ (Early.postBet ⟨[], []⟩ 0 ⟨some "bob", some "player1", some 10⟩).1.status ≠ 400 := by
  refine ⟨?_, ?_, ?_⟩
  · exact ((C4_bet_amount_validation ⟨[], []⟩ 0 ⟨some "bob", some "player1", none⟩).1 rfl).1
  · exact ((C4_bet_amount_validation ⟨[], []⟩ 0 ⟨some "bob", some "player1", some (-3)⟩).2.1
      (-3) rfl (by decide)).1
  · exact ((C4_bet_amount_validation ⟨[], []⟩ 0 ⟨some "bob", some "player1", some 10⟩).2.2
      (by decide) (by decide) 10 rfl (by decide)).1

/-- C5: POST /api/votes answers 400 `{error: "Invalid payload"}` if and only
if `voterName` is absent or empty or `votedFor` is not exactly "player1" or
"player2"; a request rejected with 400 leaves the store unchanged.  Both
revisions (the later one with state `"ok"`). -/
theorem C5_vote_validation (store : Store) (now : ℚ) (p : VotePayload) :
    ((Early.postVote store now p).1.status = 400
        ↔ p.voterName = none ∨ p.voterName = some ""
          ∨ ¬(p.votedFor = some "player1" ∨ p.votedFor = some "player2"))
  ∧ (∀ st : DbState, st.status = "ok" →
      ((Later.postVote st store now p).1.status = 400
        ↔ p.voterName = none ∨ p.voterName = some ""
          ∨ ¬(p.votedFor = some "player1" ∨ p.votedFor = some "player2")))
  ∧ ((p.voterName = none ∨ p.voterName = some ""
        ∨ ¬(p.votedFor = some "player1" ∨ p.votedFor = some "player2")) →
      Early.postVote store now p = (⟨400, invalidPayloadJ⟩, store)
      ∧ ∀ st : DbState, st.status = "ok" →
          Later.postVote st store now p = (⟨400, invalidPayloadJ⟩, store)) := by
  have hguard : (!truthyStr p.voterName || !includesP1P2 p.votedFor) = true
      ↔ (p.voterName = none ∨ p.voterName = some ""
          ∨ ¬(p.votedFor = some "player1" ∨ p.votedFor = some "player2")) := by
    cases hn : p.voterName with
    | none => simp [truthyStr, includesP1P2]
    | some s =>
      by_cases hs : s = "" <;>
        simp [truthyStr, includesP1P2, hs]
  have hEarly : (Early.postVote store now p).1.status = 400
      ↔ (p.voterName = none ∨ p.voterName = some ""
          ∨ ¬(p.votedFor = some "player1" ∨ p.votedFor = some "player2")) := by
    cases hg : (!truthyStr p.voterName || !includesP1P2 p.votedFor) with
    | false =>
      have hR : ¬(p.voterName = none ∨ p.voterName = some ""
          ∨ ¬(p.votedFor = some "player1" ∨ p.votedFor = some "player2")) := by
        intro hr
        rw [hguard.mpr hr] at hg
        simp at hg
      by_cases hname : jsTrim (p.voterName.getD "") = ""
      · simp [Early.postVote, hg, hname]
        tauto
      · cases hany : store.votes.any (fun v => v.voterName == jsTrim (p.voterName.getD "")) <;>
          (simp [Early.postVote, hg, hname, hany]; tauto)
    | true =>
      have hRt := hguard.mp hg
      simp [Early.postVote, hg]
      tauto
  refine ⟨hEarly, fun st hst => ?_, fun hr => ?_⟩
  · rw [later_postVote_ok st hst]
    exact hEarly
  · have hg := hguard.mpr hr
    have h400 : Early.postVote store now p = (⟨400, invalidPayloadJ⟩, store) := by
      simp [Early.postVote, hg]
    exact ⟨h400, fun st hst => by rw [later_postVote_ok st hst]; exact h400⟩

/-- C5 witness: the empty name is rejected 400; the good payload
("erin", "player2") on an empty store is not a 400. -/
theorem C5_vote_validation_witness :
    Early.postVote ⟨[], []⟩ 0 ⟨some "", some "player1"⟩ = (⟨400, invalidPayloadJ⟩, ⟨[], []⟩)
  ∧ ¬((Early.postVote ⟨[], []⟩ 0 ⟨some "erin", some "player2"⟩).1.status = 400) := by
  constructor
  · exact ((C5_vote_validation ⟨[], []⟩ 0 ⟨some "", some "player1"⟩).2.2
      (Or.inr (Or.inl rfl))).1
  · intro h
    have := ((C5_vote_validation ⟨[], []⟩ 0 ⟨some "erin", some "player2"⟩).1).mp h
    simp at this

/-- C8: GET /api/users/:name answers 200; it looks up at most one Vote and
at most one Bet whose unique name equals the trimmed path parameter (exact,
case-sensitive `findOne`); with no match the body is exactly
`{hasVoted: null, hasBet: null, userVotes: [], userBets: []}`, and a match
contributes the chosen option to `hasVoted`/`hasBet` and a one-element list
of the record's public fields.  The later revision with state `"ok"` agrees
with the early one. -/
theorem C8_users_lookup (store : Store) (nameParam : String) :
    (Early.users store nameParam).status = 200
  ∧ (∀ v : Vote, store.votes.find? (fun v2 => v2.voterName == jsTrim nameParam) = some v →
        v.voterName = jsTrim nameParam ∧ v ∈ store.votes)
  ∧ (∀ b : Bet, store.bets.find? (fun b2 => b2.betterName == jsTrim nameParam) = some b →
        b.betterName = jsTrim nameParam ∧ b ∈ store.bets)
  ∧ (store.votes.find? (fun v => v.voterName == jsTrim nameParam) = none →
     store.bets.find? (fun b => b.betterName == jsTrim nameParam) = none →
       (Early.users store nameParam).body
         = J.obj [("hasVoted", J.null), ("hasBet", J.null),
                  ("userVotes", J.arr []), ("userBets", J.arr [])])
  ∧ (∀ v : Vote, store.votes.find? (fun v2 => v2.voterName == jsTrim nameParam) = some v →
     store.bets.find? (fun b => b.betterName == jsTrim nameParam) = none →
       (Early.users store nameParam).body
         = J.obj [("hasVoted", J.str v.votedFor), ("hasBet", J.null),
                  ("userVotes", J.arr [voteRowJ v]), ("userBets", J.arr [])])
  ∧ (∀ b : Bet, store.votes.find? (fun v => v.voterName == jsTrim nameParam) = none →
     store.bets.find? (fun b2 => b2.betterName == jsTrim nameParam) = some b →
       (Early.users store nameParam).body
         = J.obj [("hasVoted", J.null), ("hasBet", J.str b.betOn),
                  ("userVotes", J.arr []), ("userBets", J.arr [betRowJ b])])
  ∧ (∀ v : Vote, ∀ b : Bet,
     store.votes.find? (fun v2 => v2.voterName == jsTrim nameParam) = some v →
     store.bets.find? (fun b2 => b2.betterName == jsTrim nameParam) = some b →
       (Early.users store nameParam).body
         = J.obj [("hasVoted", J.str v.votedFor), ("hasBet", J.str b.betOn),
                  ("userVotes", J.arr [voteRowJ v]), ("userBets", J.arr [betRowJ b])])
  ∧ (∀ st : DbState, st.status = "ok" →
       Later.users st store nameParam = (Early.users store nameParam, store)) := by
  refine ⟨rfl, ?_, ?_, ?_, ?_, ?_, ?_, fun st hst => later_users_ok st hst store nameParam⟩
  · intro v hv
    refine ⟨?_, List.mem_of_find?_eq_some hv⟩
    have := List.find?_some hv
    simpa [beq_iff_eq] using this
  · intro b hb
    refine ⟨?_, List.mem_of_find?_eq_some hb⟩
    have := List.find?_some hb
    simpa [beq_iff_eq] using this
  · intro h1 h2
    simp [Early.users, h1, h2]
  · intro v h1 h2
    simp [Early.users, h1, h2]
  · intro b h1 h2
    simp [Early.users, h1, h2]
  · intro v b h1 h2
    simp [Early.users, h1, h2]

/-- C8 witness: looking up " ghost " (trimming to "ghost") in an empty
store gives the all-null, empty-list body. -/
theorem C8_users_lookup_witness :
    (Early.users ⟨[], []⟩ " ghost ").status = 200
  ∧ (Early.users ⟨[], []⟩ " ghost ").body
      = J.obj [("hasVoted", J.null), ("hasBet", J.null),
               ("userVotes", J.arr []), ("userBets", J.arr [])] :=
  ⟨(C8_users_lookup ⟨[], []⟩ " ghost ").1,
   (C8_users_lookup ⟨[], []⟩ " ghost ").2.2.2.1 rfl rfl⟩

/-- C6 counterexample: the claim says every limit query value is clamped
into [1, 500], but for `limit=-600` the code computes
`Math.min(parseInt("-600") || 100, 500) = -600` and hands this un-clamped
negative value to the store. -/
theorem C6_recent_limit_counterexample :
    computeLimit (some "-600") = -600
  ∧ ¬(1 ≤ computeLimit (some "-600") ∧ computeLimit (some "-600") ≤ 500) := by
  decide

/-- C6 (amended): the limit passed to the store is capped above at 500 and
defaults to 100 when the parameter is absent, unparsable, or parses to 0;
a parsed non-zero value is passed as `min(value, 500)` with no lower clamp;
`limit=9999` yields exactly the same response as `limit=500` in both
revisions, and the returned records are sorted by timestamp descending. -/
theorem C6_recent_limit (store : Store) (limitQ : Option String) :
    computeLimit limitQ ≤ 500
  ∧ computeLimit none = 100
  ∧ (parseIntJS limitQ = none → computeLimit limitQ = 100)
  ∧ (parseIntJS limitQ = some 0 → computeLimit limitQ = 100)
  ∧ (∀ n : Int, parseIntJS limitQ = some n → n ≠ 0 → computeLimit limitQ = min n 500)
  ∧ Early.votesRecent store (some "9999") = Early.votesRecent store (some "500")
  ∧ Early.betsRecent store (some "9999") = Early.betsRecent store (some "500")
  ∧ (∀ st : DbState,
       Later.votesRecent st store (some "9999") = Later.votesRecent st store (some "500")
       ∧ Later.betsRecent st store (some "9999") = Later.betsRecent st store (some "500"))
  ∧ Early.votesRecent store limitQ
      = ⟨200, J.arr (((sortVotesTsDesc store.votes).take
          (computeLimit limitQ).toNat).map voteRowJ)⟩
  ∧ List.Sorted (fun a b : Vote => b.timestamp ≤ a.timestamp)
      ((sortVotesTsDesc store.votes).take (computeLimit limitQ).toNat)
  ∧ Early.betsRecent store limitQ
      = ⟨200, J.arr (((sortBetsTsDesc store.bets).take
          (computeLimit limitQ).toNat).map betRowJ)⟩
  ∧ List.Sorted (fun a b : Bet => b.timestamp ≤ a.timestamp)
      ((sortBetsTsDesc store.bets).take (computeLimit limitQ).toNat) := by
  have h95 : computeLimit (some "9999") = computeLimit (some "500") := by decide
  refine ⟨min_le_right _ _, rfl, fun h => ?_, fun h => ?_, fun n hn hnz => ?_,
    ?_, ?_, fun st => ⟨?_, ?_⟩, rfl, ?_, rfl, ?_⟩
  · simp [computeLimit, h, jsOrInt]
  · simp [computeLimit, h, jsOrInt]
  · simp [computeLimit, hn, jsOrInt, hnz]
  · simp [Early.votesRecent, h95]
  · simp [Early.betsRecent, h95]
  · simp [Later.votesRecent, Later.requireDB, h95]
  · simp [Later.betsRecent, Later.requireDB, h95]
  · exact List.Pairwise.sublist (List.take_sublist _ _) (sorted_sortVotesTsDesc store.votes)
  · exact List.Pairwise.sublist (List.take_sublist _ _) (sorted_sortBetsTsDesc store.bets)

/-- C6 witness: an unparsable limit defaults to 100, `limit=9999` equals
`limit=500` on a two-vote store, and `limit=7` passes through as 7. -/
theorem C6_recent_limit_witness :
    computeLimit (some "abc") = 100
  ∧ Early.votesRecent ⟨[⟨"a", "player1", 1⟩, ⟨"b", "player2", 2⟩], []⟩ (some "9999")
      = Early.votesRecent ⟨[⟨"a", "player1", 1⟩, ⟨"b", "player2", 2⟩], []⟩ (some "500")
  ∧ computeLimit (some "7") = 7 := by
  refine ⟨(C6_recent_limit ⟨[], []⟩ (some "abc")).2.2.1 (by decide),
    (C6_recent_limit ⟨[⟨"a", "player1", 1⟩, ⟨"b", "player2", 2⟩], []⟩
      (some "9999")).2.2.2.2.2.1, ?_⟩
  have h := (C6_recent_limit ⟨[], []⟩ (some "7")).2.2.2.2.1 7 (by decide) (by decide)
  simpa using h

end BGMI
